import Mathlib

/-!
# Verification of the semi-proprietary module system

A shallow embedding, in Lean 4, of the core of the
`dstack-semiproprietary-modules` repository:

* the static self-containment verifier (`enclave/sudoku-verifier.js`),
* the ECIES codec (`scripts/encrypt-module.js`, `enclave/module-encryption.js`),
* the key-derivation and policy-gate logic (`enclave/dstack-integration.js`),
* the integrity check of `decryptModule` (`enclave/module-encryption.js`).

Modelling conventions:

* Bytes are `Nat` values (< 256 on all real inputs); byte buffers are
  `List Nat`.  Machine arithmetic is explicit `% 2^32` where the SHA-256
  compression function needs it.
* External library primitives that the repository calls but does not
  implement (the secp256k1 group, AES-CTR / AES-CBC, scrypt) are modelled
  by explicit executable stand-ins that preserve exactly the structure the
  code relies on: the curve is modelled by its scalar group (a point is
  identified with its discrete logarithm with respect to the generator, so
  `publicKeyCreate` is reduction mod the group order and
  `publicKeyTweakMul` is scalar multiplication), and the CTR stream cipher
  is XOR with a deterministic keystream derived from (key, iv).  SHA-256
  and HMAC-SHA256 are implemented in full (FIPS 180-4), because the code
  under verification depends on actual digest values (key-derivation
  paths, source hashes).
* The verifier's AST walk (`walkAST`) visits every object-valued
  descendant of the parse tree.  Each per-node check of the verifier reads
  only the node's own tag fields and the tag fields of its immediate
  children (`callee.name`, `left.type`, ...); we therefore model a visited
  node as a flat record of exactly those fields, and the verifier as a
  fold over the pre-order list of visited nodes, which is the information
  the single traversal of `verifySudokuModule` consumes.
-/

set_option maxRecDepth 20000

/-! ## The verifier's view of a syntax-tree node

`sudoku-verifier.js` walks the parse tree produced by
`@typescript-eslint/parser` and, at each node, reads the fields below
(optional-chained, so a missing field is `none`).  `AstNode` is one visited
node of the walk. -/

/-- One node visited by `walkAST`, carrying the fields the four per-node
checks of `sudoku-verifier.js` read: the node's `type`, its `name` (for
`Identifier` nodes), `callee.type` / `callee.name` / `callee.property.name`,
`arguments[0].value` (string literal argument of a call), `object.name` and
`property.name` (member expressions), `computed`, `operator`, `left.type` /
`left.computed` / `left.object.name` / `left.property.name`, `right.type`,
and the `key.name`s of the properties of an `ObjectExpression` on the
right-hand side of an assignment. -/
structure AstNode where
  ty : String
  name : Option String
  calleeType : Option String
  calleeName : Option String
  calleePropName : Option String
  arg0Value : Option String
  objectName : Option String
  propertyName : Option String
  computed : Bool
  operator : Option String
  leftType : Option String
  leftComputed : Bool
  leftObjectName : Option String
  leftPropName : Option String
  rightType : Option String
  rightKeyNames : List String
  deriving DecidableEq, Repr

/-- A plain node with only a `type` tag (all optional fields absent). -/
def bareNode (ty : String) : AstNode :=
  ⟨ty, none, none, none, none, none, none, none, false, none,
   none, false, none, none, none, []⟩

/-- The running analysis record of `verifySudokuModule`: starts with
`isContained = true`, no violations, no structure signals, no exports and
zero complexity counters.  (In the source the counters live in the
`complexity` object and start `undefined`; `undefined + 1` is first forced
to `0 + 1` by the `|| 0` default, so `Nat` counters starting at `0` are
exact.) -/
structure Analysis where
  isContained : Bool
  violations : List String
  hasLoops : Bool
  hasRecursion : Bool
  hasGridValidation : Bool
  exports : List String
  loopCount : Nat
  functionCount : Nat
  arrayAccess : Nat
  deriving DecidableEq, Repr

/-- The initial `analysis` object of `verifySudokuModule`. -/
def initialAnalysis : Analysis :=
  ⟨true, [], false, false, false, [], 0, 0, 0⟩

/-- `isAllowedBuiltin` of `sudoku-verifier.js`: the builtin Node modules a
module may `require`. -/
def isAllowedBuiltin (moduleName : String) : Bool :=
  ["crypto", "util"].contains moduleName

/-- `isExternalAPI` of `sudoku-verifier.js`: function names whose call is a
violation. -/
def isExternalAPI (funcName : String) : Bool :=
  ["fetch", "XMLHttpRequest", "axios", "request",
   "readFileSync", "writeFileSync", "spawn", "exec",
   "connect", "createConnection", "createServer"].contains funcName

/-- `isLocalFunction` of `sudoku-verifier.js`: common sudoku function names
whose call counts as a recursion signal. -/
def isLocalFunction (funcName : String) : Bool :=
  ["solve", "isValid", "solveSudoku", "validatePuzzle"].contains funcName

/-- `getFunctionName` of `sudoku-verifier.js`: resolve a callee to a name —
an `Identifier` callee resolves to its `name`, a `MemberExpression` callee
to its `property.name`, anything else to `null`. -/
def getFunctionName (n : AstNode) : Option String :=
  if n.calleeType = some "Identifier" then n.calleeName
  else if n.calleeType = some "MemberExpression" then n.calleePropName
  else none

/-- The forbidden ambient-scope identifiers of check 4 of
`checkExternalAccess`. -/
def forbiddenGlobals : List String :=
  ["global", "window", "self", "globalThis"]

/-- Check 1 of `checkExternalAccess`: no external module requires.  Fires
only on a truthy (non-empty) string-literal module name, mirroring
`if (moduleName && !this.isAllowedBuiltin(moduleName))`. -/
def checkRequire (n : AstNode) (a : Analysis) : Analysis :=
  if n.ty = "CallExpression" ∧ n.calleeName = some "require" then
    match n.arg0Value with
    | some m =>
      if m ≠ "" ∧ ¬ isAllowedBuiltin m then
        { a with
            violations := a.violations ++
              ["External module access: require(" ++ m ++ ")"]
            isContained := false }
      else a
    | none => a
  else a

/-- Check 2 of `checkExternalAccess`: no external function calls
(`fetch`, `XMLHttpRequest`, etc.). -/
def checkExternalCall (n : AstNode) (a : Analysis) : Analysis :=
  if n.ty = "CallExpression" then
    match getFunctionName n with
    | some f =>
      if isExternalAPI f then
        { a with
            violations := a.violations ++ ["External API call: " ++ f ++ "()"]
            isContained := false }
      else a
    | none => a
  else a

/-- Check 3 of `checkExternalAccess`: no file system access (member
access on `fs` or `process`). -/
def checkSystemAccess (n : AstNode) (a : Analysis) : Analysis :=
  if n.ty = "MemberExpression" then
    match n.objectName, n.propertyName with
    | some o, some p =>
      if o = "fs" ∨ o = "process" then
        { a with
            violations := a.violations ++ ["System access: " ++ o ++ "." ++ p]
            isContained := false }
      else a
    | _, _ => a
  else a

/-- Check 4 of `checkExternalAccess`: no global/window access. -/
def checkGlobalAccess (n : AstNode) (a : Analysis) : Analysis :=
  if n.ty = "Identifier" then
    match n.name with
    | some nm =>
      if forbiddenGlobals.contains nm then
        { a with
            violations := a.violations ++ ["Global scope access: " ++ nm]
            isContained := false }
      else a
    | none => a
  else a

/-- `checkExternalAccess` of `sudoku-verifier.js`: the four numbered
deny-list checks, in source order, each appending a violation and clearing
`isContained` when it fires. -/
def checkExternalAccess (n : AstNode) (a : Analysis) : Analysis :=
  checkGlobalAccess n (checkSystemAccess n (checkExternalCall n (checkRequire n a)))

/-- `isGridAccessPattern` of `sudoku-verifier.js`: `left` is a computed
`MemberExpression` and `right` is an `Identifier`. -/
def isGridAccessPattern (n : AstNode) : Bool :=
  n.leftType = some "MemberExpression" ∧ n.leftComputed ∧
    n.rightType = some "Identifier"

/-- `checkAlgorithmicStructure` of `sudoku-verifier.js`: records loop,
recursion and grid-validation signals (never touches `isContained` or
`violations`). -/
def checkAlgorithmicStructure (n : AstNode) (a : Analysis) : Analysis :=
  let a :=
    if n.ty = "ForStatement" ∨ n.ty = "WhileStatement" then
      { a with hasLoops := true }
    else a
  let a :=
    if n.ty = "CallExpression" then
      match getFunctionName n with
      | some f => if isLocalFunction f then { a with hasRecursion := true } else a
      | none => a
    else a
  if n.ty = "BinaryExpression" ∧ n.operator = some "===" then
    if isGridAccessPattern n then { a with hasGridValidation := true } else a
  else a

/-- `checkComplexity` of `sudoku-verifier.js`: counts `ForStatement`s,
`FunctionDeclaration`s, and computed member accesses. -/
def checkComplexity (n : AstNode) (a : Analysis) : Analysis :=
  let a :=
    if n.ty = "ForStatement" then { a with loopCount := a.loopCount + 1 } else a
  let a :=
    if n.ty = "FunctionDeclaration" then
      { a with functionCount := a.functionCount + 1 }
    else a
  if n.ty = "MemberExpression" ∧ n.computed then
    { a with arrayAccess := a.arrayAccess + 1 }
  else a

/-- `checkExports` of `sudoku-verifier.js`: on `module.exports = { ... }`
collect the property key names into `exports`. -/
def checkExports (n : AstNode) (a : Analysis) : Analysis :=
  if n.ty = "AssignmentExpression" ∧ n.leftObjectName = some "module" ∧
      n.leftPropName = some "exports" then
    if n.rightType = some "ObjectExpression" then
      { a with exports := a.exports ++ n.rightKeyNames }
    else a
  else a

/-- One step of the walk callback of `verifySudokuModule`: the four checks
in source order. -/
def verifyStep (a : Analysis) (n : AstNode) : Analysis :=
  checkExports n (checkComplexity n (checkAlgorithmicStructure n (checkExternalAccess n a)))

/-- The required export names of the verifier (`requiredExports`). -/
def requiredExports : List String := ["solveSudoku", "validatePuzzle"]

/-- The first block of `validateSudokuConstraints`: a violation for each
missing required export. -/
def checkRequiredExports (a : Analysis) : Analysis :=
  requiredExports.foldl (fun a req =>
    if ¬ a.exports.contains req then
      { a with
          violations := a.violations ++ ["Missing required export: " ++ req]
          isContained := false }
    else a) a

/-- `validateSudokuConstraints`: the loop-signal requirement. -/
def requireLoops (a : Analysis) : Analysis :=
  if ¬ a.hasLoops then
    { a with
        violations := a.violations ++
          ["No iterative structure found - suspicious for sudoku solving"]
        isContained := false }
  else a

/-- `validateSudokuConstraints`: the grid-validation-signal requirement. -/
def requireGridValidation (a : Analysis) : Analysis :=
  if ¬ a.hasGridValidation then
    { a with
        violations := a.violations ++ ["No grid validation patterns found"]
        isContained := false }
  else a

/-- `validateSudokuConstraints`: the loop-count bound
(`maxLoopCount = 20`). -/
def boundLoopCount (a : Analysis) : Analysis :=
  if a.loopCount > 20 then
    { a with
        violations := a.violations ++
          ["Excessive loop complexity: " ++ toString a.loopCount]
        isContained := false }
  else a

/-- `validateSudokuConstraints`: the function-count bound
(`maxFunctionCalls = 10`). -/
def boundFunctionCount (a : Analysis) : Analysis :=
  if a.functionCount > 10 then
    { a with
        violations := a.violations ++
          ["Excessive function count: " ++ toString a.functionCount]
        isContained := false }
  else a

/-- `validateSudokuConstraints` of `sudoku-verifier.js`: the
post-traversal adjudication blocks, in source order.  Note it bounds only
the loop and function counters (the `arrayAccess` counter has no
corresponding check in the source), and it requires the loop and
grid-validation signals but not the recursion signal. -/
def validateSudokuConstraints (a : Analysis) : Analysis :=
  boundFunctionCount (boundLoopCount (requireGridValidation (requireLoops
    (checkRequiredExports a))))

/-- The traversal of `verifySudokuModule` over the pre-order list of
visited nodes, followed by `validateSudokuConstraints`. -/
def verifySudoku (nodes : List AstNode) : Analysis :=
  validateSudokuConstraints (nodes.foldl verifyStep initialAnalysis)

/-- `verifySudokuModule` itself: `parse` is the external
`@typescript-eslint/parser`; its outcome (the pre-order node list, or the
thrown parse error) is this function's input.  The body of
`verifySudokuModule` contains no `try`/`catch`, so a parse exception
propagates to the caller unchanged — modelled by `Except` propagation. -/
def verifySudokuModule (parsed : Except String (List AstNode)) :
    Except String Analysis :=
  match parsed with
  | .error e => .error e
  | .ok nodes => .ok (verifySudoku nodes)

/-! ## SHA-256 and HMAC-SHA256

`crypto.createHash('sha256')` and `crypto.createHmac('sha256', k)` of the
Node standard library, implemented in full (FIPS 180-4 / RFC 2104) over
byte lists, because the code under verification depends on concrete digest
values (key-derivation paths, source hashes, MAC tags).  All functions are
structurally recursive so that concrete instances evaluate inside `decide`
proofs. -/

/-- Truncation to a 32-bit word. -/
def w32 (n : Nat) : Nat := n % 4294967296

/-- 32-bit right rotation. -/
def rotr32 (k x : Nat) : Nat := w32 ((x >>> k) ||| (x <<< (32 - k)))

/-- FIPS 180-4 Σ0. -/
def bsig0 (x : Nat) : Nat := rotr32 2 x ^^^ rotr32 13 x ^^^ rotr32 22 x
/-- FIPS 180-4 Σ1. -/
def bsig1 (x : Nat) : Nat := rotr32 6 x ^^^ rotr32 11 x ^^^ rotr32 25 x
/-- FIPS 180-4 σ0. -/
def ssig0 (x : Nat) : Nat := rotr32 7 x ^^^ rotr32 18 x ^^^ (x >>> 3)
/-- FIPS 180-4 σ1. -/
def ssig1 (x : Nat) : Nat := rotr32 17 x ^^^ rotr32 19 x ^^^ (x >>> 10)

/-- FIPS 180-4 Ch (the complement is XOR with `0xffffffff`). -/
def chF (x y z : Nat) : Nat := (x &&& y) ^^^ ((x ^^^ 4294967295) &&& z)
/-- FIPS 180-4 Maj. -/
def majF (x y z : Nat) : Nat := (x &&& y) ^^^ (x &&& z) ^^^ (y &&& z)

/-- The 64 SHA-256 round constants. -/
def sha256K : List Nat :=
  [1116352408, 1899447441, 3049323471, 3921009573,
   961987163, 1508970993, 2453635748, 2870763221,
   3624381080, 310598401, 607225278, 1426881987,
   1925078388, 2162078206, 2614888103, 3248222580,
   3835390401, 4022224774, 264347078, 604807628,
   770255983, 1249150122, 1555081692, 1996064986,
   2554220882, 2821834349, 2952996808, 3210313671,
   3336571891, 3584528711, 113926993, 338241895,
   666307205, 773529912, 1294757372, 1396182291,
   1695183700, 1986661051, 2177026350, 2456956037,
   2730485921, 2820302411, 3259730800, 3345764771,
   3516065817, 3600352804, 4094571909, 275423344,
   430227734, 506948616, 659060556, 883997877,
   958139571, 1322822218, 1537002063, 1747873779,
   1955562222, 2024104815, 2227730452, 2361852424,
   2428436474, 2756734187, 3204031479, 3329325298]

/-- The eight 32-bit working variables of SHA-256. -/
structure HState where
  a : Nat
  b : Nat
  c : Nat
  d : Nat
  e : Nat
  f : Nat
  g : Nat
  h : Nat
  deriving DecidableEq, Repr

/-- The SHA-256 initial hash value. -/
def sha256Init : HState :=
  ⟨1779033703, 3144134277, 1013904242, 2773480762,
   1359893119, 2600822924, 528734635, 1541459225⟩

/-- One round of the SHA-256 compression function. -/
def sha256Round (s : HState) (kw : Nat × Nat) : HState :=
  let t1 := w32 (s.h + bsig1 s.e + chF s.e s.f s.g + kw.1 + kw.2)
  let t2 := w32 (bsig0 s.a + majF s.a s.b s.c)
  ⟨w32 (t1 + t2), s.a, s.b, s.c, w32 (s.d + t1), s.e, s.f, s.g⟩

/-- Extend the 16-word message schedule by `k` further words. -/
def extendSched (ws : List Nat) : Nat → List Nat
  | 0 => ws
  | k + 1 =>
    let l := ws.length
    let nw := w32 (ssig1 (ws.getD (l - 2) 0) + ws.getD (l - 7) 0 +
      ssig0 (ws.getD (l - 15) 0) + ws.getD (l - 16) 0)
    extendSched (ws ++ [nw]) k

/-- Group bytes into big-endian 32-bit words. -/
def words4 : List Nat → List Nat
  | a :: b :: c :: d :: rest => (((a * 256 + b) * 256 + c) * 256 + d) :: words4 rest
  | _ => []

/-- The SHA-256 compression function on one 64-byte block. -/
def sha256Compress (s : HState) (block : List Nat) : HState :=
  let ws := extendSched (words4 block) 48
  let t := (sha256K.zip ws).foldl sha256Round s
  ⟨w32 (s.a + t.a), w32 (s.b + t.b), w32 (s.c + t.c), w32 (s.d + t.d),
   w32 (s.e + t.e), w32 (s.f + t.f), w32 (s.g + t.g), w32 (s.h + t.h)⟩

/-- A natural number as `len` big-endian bytes. -/
def natToBytesBE : Nat → Nat → List Nat
  | 0, _ => []
  | l + 1, p => natToBytesBE l (p / 256) ++ [p % 256]

/-- FIPS 180-4 padding: `0x80`, zeros to 56 mod 64, 8-byte bit length. -/
def sha256Pad (msg : List Nat) : List Nat :=
  let l := msg.length
  let zeros := (64 - (l + 9) % 64) % 64
  msg ++ [128] ++ List.replicate zeros 0 ++ natToBytesBE 8 (l * 8)

/-- Split into 64-byte blocks (fuelled, structurally recursive). -/
def toBlocksN : Nat → List Nat → List (List Nat)
  | 0, _ => []
  | k + 1, l => if l = [] then [] else l.take 64 :: toBlocksN k (l.drop 64)

/-- Split a padded message into its 64-byte blocks. -/
def toBlocks (l : List Nat) : List (List Nat) := toBlocksN l.length l

/-- A 32-bit word as its four big-endian bytes. -/
def word32Bytes (w : Nat) : List Nat :=
  [w / 16777216 % 256, w / 65536 % 256, w / 256 % 256, w % 256]

/-- SHA-256 of a byte list. -/
def sha256 (msg : List Nat) : List Nat :=
  let s := (toBlocks (sha256Pad msg)).foldl sha256Compress sha256Init
  word32Bytes s.a ++ word32Bytes s.b ++ word32Bytes s.c ++ word32Bytes s.d ++
    word32Bytes s.e ++ word32Bytes s.f ++ word32Bytes s.g ++ word32Bytes s.h

/-- Lowercase hex digit. -/
def hexChar (n : Nat) : Char :=
  "0123456789abcdef".toList.getD n '0'

/-- Hex encoding of a byte list (`Buffer.digest('hex')`). -/
def bytesToHex (bs : List Nat) : String :=
  String.mk (bs.flatMap (fun b => [hexChar (b / 16), hexChar (b % 16)]))

/-- The bytes of an ASCII string (all strings the system hashes are ASCII, where UTF-8 and code points coincide). -/
def strBytes (s : String) : List Nat :=
  s.data.map Char.toNat

/-- `crypto.createHash('sha256').update(msg).digest('hex')`. -/
def sha256hex (msg : List Nat) : String := bytesToHex (sha256 msg)

/-- HMAC-SHA256 (RFC 2104): opad is `0x5c`, ipad is `0x36`. -/
def hmacSha256 (key msg : List Nat) : List Nat :=
  let k0 := if key.length > 64 then sha256 key else key
  let kp := k0 ++ List.replicate (64 - k0.length) 0
  sha256 ((kp.map (· ^^^ 92)) ++ sha256 ((kp.map (· ^^^ 54)) ++ msg))

/-- Big-endian bytes back to a natural number. -/
def beToNat (bs : List Nat) : Nat :=
  bs.foldl (fun acc b => acc * 256 + b) 0

/-! ## The secp256k1 model

The repository uses the external `secp256k1` npm package for three
operations: `privateKeyVerify`, `publicKeyCreate(priv, false)` (an
uncompressed 65-byte point) and `publicKeyTweakMul(point, scalar)`.  The
curve group is cyclic of prime order `n`; we model a point by its discrete
logarithm with respect to the generator, so `publicKeyCreate` is reduction
mod `n` and `publicKeyTweakMul` is multiplication mod `n`.  The 65-byte
uncompressed encoding `04 ‖ x ‖ y` is modelled as `04 ‖ log ‖ 0…0`: a
deterministic injective 65-byte encoding whose bytes 1..32 (the slice the
code takes as the ECDH shared secret) determine the point, exactly the
properties the ECIES code relies on. -/

/-- The order of the secp256k1 group. -/
def secpN : Nat :=
  115792089237316195423570985008687907852837564279074904382605163141518161494337

/-- `secp256k1.privateKeyVerify`: a private key is a scalar in `[1, n-1]`.
(The byte-level interpretation is big-endian; we model keys as the numbers
they encode.) -/
def privateKeyVerify (k : Nat) : Bool :=
  0 < k ∧ k < secpN

/-- The uncompressed 65-byte point encoding (model): `0x04`, the 32
big-endian bytes of the discrete logarithm, 32 zero bytes. -/
def pointSer (p : Nat) : List Nat :=
  4 :: natToBytesBE 32 p ++ List.replicate 32 0

/-- Recover the point (its discrete logarithm) from the 65-byte encoding. -/
def pointParse (bs : List Nat) : Nat :=
  beToNat ((bs.drop 1).take 32)

/-- `secp256k1.publicKeyCreate(priv, false)`: the point `priv·G`,
uncompressed. -/
def publicKeyCreate (priv : Nat) : List Nat :=
  pointSer (priv % secpN)

/-- `secp256k1.publicKeyTweakMul(point, scalar)`: scalar multiplication of
an encoded point. -/
def publicKeyTweakMul (pointBytes : List Nat) (scalar : Nat) : List Nat :=
  pointSer (pointParse pointBytes * scalar % secpN)

/-! ## The AES-128-CTR model

`crypto.createCipheriv('aes-128-ctr', key, iv)` /
`createDecipheriv('aes-128-ctr', ...)` of the Node standard library.  CTR
mode XORs the plaintext with a keystream that is a deterministic function
of (key, iv); encryption and decryption are the same XOR.  The block
cipher itself is external; its keystream is modelled by SHA-256 in counter
mode, which preserves the two properties the code relies on: determinism
in (key, iv), and `decrypt ∘ encrypt = id`. -/

/-- `count` keystream blocks starting at counter `i`. -/
def ksBlocksFrom (key iv : List Nat) (i : Nat) : Nat → List Nat
  | 0 => []
  | c + 1 => sha256 (key ++ iv ++ word32Bytes i) ++ ksBlocksFrom key iv (i + 1) c

/-- The first `len` keystream bytes for (key, iv). -/
def keystream (key iv : List Nat) (len : Nat) : List Nat :=
  (ksBlocksFrom key iv 0 ((len + 31) / 32)).take len

/-- Byte-wise XOR (truncating to the shorter list, as `zipWith` does; the
codec always uses equal lengths). -/
def xorBytes (a b : List Nat) : List Nat :=
  List.zipWith (fun x y => x ^^^ y) a b

/-- AES-128-CTR of `data` under `key` and `iv` (model): XOR with the
keystream.  Identical for encryption and decryption. -/
def aes128ctr (key iv data : List Nat) : List Nat :=
  xorBytes data (keystream key iv data.length)

/-! ## The ECIES codec

`ECIESEncryption.encrypt` / `ECIESEncryption.decrypt` of
`scripts/encrypt-module.js` (the decryption side is duplicated verbatim as
`decryptECIES` in `enclave/module-encryption.js`).  The ephemeral private
key and the IV are the randomness `crypto.randomBytes` draws; they are
explicit arguments here. -/

/-- Key material both sides derive from the ECDH shared point: the
32-byte HMAC of the x-coordinate under an empty key, split into a 16-byte
encryption key and a 16-byte MAC key. -/
def eciesKeys (sharedPoint : List Nat) : List Nat × List Nat :=
  let sharedSecret := (sharedPoint.drop 1).take 32
  let derivedKey := hmacSha256 [] sharedSecret
  (derivedKey.take 16, (derivedKey.drop 16).take 16)

/-- `ECIESEncryption.encrypt(data, publicKey)` with ephemeral private key
`ephPriv` and random `iv` made explicit: output
`ephemeral_pubkey(65) ‖ iv(16) ‖ ciphertext ‖ mac(32)`. -/
def eciesEncrypt (data publicKey : List Nat) (ephPriv : Nat) (iv : List Nat) :
    List Nat :=
  let ephemeralPublicKey := publicKeyCreate ephPriv
  let sharedPoint := publicKeyTweakMul publicKey ephPriv
  let ks := eciesKeys sharedPoint
  let encrypted := iv ++ aes128ctr ks.1 iv data
  let mac := hmacSha256 ks.2 (ephemeralPublicKey ++ encrypted)
  ephemeralPublicKey ++ encrypted ++ mac

/-- The components `ECIESEncryption.decrypt` slices out of the buffer and
recomputes before the MAC comparison: the embedded ephemeral public key
(`slice(0, 65)`), the IV-plus-ciphertext span (`slice(65, -32)`), the
embedded MAC (`slice(-32)`), the re-derived sub-keys and the recomputed
MAC. -/
structure EciesParts where
  ephemeralPublicKey : List Nat
  encrypted : List Nat
  mac : List Nat
  encKey : List Nat
  macKey : List Nat
  expectedMac : List Nat
  deriving DecidableEq, Repr

/-- Slice and recompute, as lines 78–96 of `scripts/encrypt-module.js` do. -/
def eciesParts (encryptedData : List Nat) (privateKey : Nat) : EciesParts :=
  let ephemeralPublicKey := encryptedData.take 65
  let encrypted := (encryptedData.drop 65).take (encryptedData.length - 97)
  let mac := encryptedData.drop (encryptedData.length - 32)
  let sharedPoint := publicKeyTweakMul ephemeralPublicKey privateKey
  let ks := eciesKeys sharedPoint
  let expectedMac := hmacSha256 ks.2 (ephemeralPublicKey ++ encrypted)
  ⟨ephemeralPublicKey, encrypted, mac, ks.1, ks.2, expectedMac⟩

/-- `ECIESEncryption.decrypt(encryptedData, privateKey)`: length check,
slice, re-derive, verify the MAC, and only then decrypt.  A thrown
exception is an `Except.error` with the exception message. -/
def eciesDecrypt (encryptedData : List Nat) (privateKey : Nat) :
    Except String (List Nat) :=
  if encryptedData.length < 97 then
    .error "Invalid encrypted data length"
  else
    let p := eciesParts encryptedData privateKey
    if p.mac = p.expectedMac then
      let iv := p.encrypted.take 16
      let actualEncrypted := p.encrypted.drop 16
      .ok (aes128ctr p.encKey iv actualEncrypted)
    else
      .error "MAC verification failed"

/-- The two observable cryptographic actions of the decryption path, in
the order the code performs them. -/
inductive DecItem where
  | macVerify
  | symDecrypt
  deriving DecidableEq, Repr

/-- `eciesDecrypt` instrumented with the ordered list of actions it
performs: the MAC comparison is recorded when it happens, the symmetric
decryption when (and only when) `createDecipheriv`/`update` run.  The
computation is line-for-line that of `ECIESEncryption.decrypt`. -/
def eciesDecryptTraced (encryptedData : List Nat) (privateKey : Nat) :
    Except String (List Nat) × List DecItem :=
  if encryptedData.length < 97 then
    (.error "Invalid encrypted data length", [])
  else
    let p := eciesParts encryptedData privateKey
    if p.mac = p.expectedMac then
      let iv := p.encrypted.take 16
      let actualEncrypted := p.encrypted.drop 16
      (.ok (aes128ctr p.encKey iv actualEncrypted),
        [DecItem.macVerify, DecItem.symDecrypt])
    else
      (.error "MAC verification failed", [DecItem.macVerify])

/-! ## Policies as JavaScript objects

`enclave/dstack-integration.js` treats a policy as a plain JS object: it
serializes it with `JSON.stringify` (which enumerates keys in insertion
order) and reads the properties `requiresPayment`, `paymentProof` and
`validUntil` with JS truthiness.  A policy is modelled as an ordered
association list of string keys to JSON values. -/

/-- A JSON value as the policies use them: string, number (epoch
milliseconds where a date is meant) or boolean. -/
inductive JVal where
  | str : String → JVal
  | num : Nat → JVal
  | bool : Bool → JVal
  deriving DecidableEq, Repr

/-- JS truthiness of a JSON value. -/
def JVal.truthy : JVal → Bool
  | .str s => s ≠ ""
  | .num n => n ≠ 0
  | .bool b => b

/-- A policy object: keys in insertion order. -/
abbrev Policy := List (String × JVal)

/-- JS property read `p.k` (objects have distinct keys, so the first match
is the property). -/
def getProp (p : Policy) (k : String) : Option JVal :=
  (p.find? (fun kv => kv.1 = k)).map (fun kv => kv.2)

/-- Truthiness of `p.k` (`undefined` is falsy). -/
def truthyProp (p : Policy) (k : String) : Bool :=
  match getProp p k with
  | some v => v.truthy
  | none => false

/-- `JSON.stringify` of a JSON value. -/
def JVal.render : JVal → String
  | .str s => "\"" ++ s ++ "\""
  | .num n => toString n
  | .bool b => if b then "true" else "false"

/-- `JSON.stringify` of a policy object: keys in insertion order, no
whitespace. -/
def jsonStringify (p : Policy) : String :=
  "\x7b" ++ String.intercalate ","
    (p.map (fun kv => "\"" ++ kv.1 ++ "\":" ++ kv.2.render)) ++ "\x7d"

/-- `new Date(v).getTime()` for the values the policies use: a number is
epoch milliseconds.  (A date-string value would parse by the full JS date
grammar, which is not modelled; `none` means the comparison below is
skipped, which matches the JS `NaN`-comparison behaviour for an
unparsable date.) -/
def jsDateMs : JVal → Option Nat
  | .num n => some n
  | _ => none

/-! ## The policy gate

`verifyPolicyWithAttestation` of `enclave/dstack-integration.js` (the same
two rules, in the same order, appear in `verifyDecryptionPolicy` of
`enclave/semiprop-module-loader.js`).  The attestation it fetches first
cannot fail in the embedded configuration (on any error the code
substitutes `generateMockAttestation`, which always succeeds), so the gate
is a pure function of the two policies and the current time, returning
`()` for a passed verification and the thrown error message otherwise. -/

def verifyPolicyWithAttestation (modulePolicy requestPolicy : Policy)
    (now : Nat) : Except String Unit :=
  if truthyProp modulePolicy "requiresPayment" ∧
      ¬ truthyProp requestPolicy "paymentProof" then
    .error "Payment required for module decryption"
  else if truthyProp modulePolicy "validUntil" then
    match (getProp modulePolicy "validUntil").bind jsDateMs with
    | some expiry =>
      if now > expiry then .error "Module access has expired" else .ok ()
    | none => .ok ()
  else
    .ok ()

/-! ## Key derivation

`deriveKey`, `deriveMockKey` and `deriveModuleKey` of
`enclave/dstack-integration.js`. -/

/-- The result of a key-derivation request: raw key bytes and the
provenance signature chain. -/
structure DerivedKey where
  key : List Nat
  signatureChain : List (List Nat)
  deriving DecidableEq, Repr

/-- `deriveMockKey(path, purpose)`: the deterministic development
fallback, keyed on the instance app id. -/
def deriveMockKey (appId path purpose : String) : DerivedKey :=
  let mockSeed := "mock-dstack-key:" ++ appId ++ ":" ++ path ++ ":" ++ purpose
  ⟨sha256 (strBytes mockSeed),
   [sha256 (strBytes ("signature:" ++ mockSeed))]⟩

/-- The state `deriveKey` observes: `none` models `this.client === null`
(no dstack client); `some outcome` models a present client whose
`getKey(path, purpose)` call either returned a key result or threw. -/
def ClientGetKey := Option (Except String DerivedKey)

/-- `deriveKey(path, purpose)` of `enclave/dstack-integration.js`
lines 47–74: with a client and a successful `getKey`, the trust-anchor
result; when `getKey` throws, or when there is no client, the function
falls back to `deriveMockKey` — it never surfaces the failure. -/
def deriveKey (client : ClientGetKey) (appId path purpose : String) :
    DerivedKey :=
  match client with
  | some (.ok keyResult) => keyResult
  | some (.error _) => deriveMockKey appId path purpose
  | none => deriveMockKey appId path purpose

/-- The result of `deriveModuleKey`. -/
structure ModuleKeyResult where
  moduleKey : String
  signatureChain : List (List Nat)
  keyPath : String
  deriving DecidableEq, Repr

/-- `deriveModuleKey(moduleId, policy)` of
`enclave/dstack-integration.js` lines 124–143, with the trust-anchor
round trip `this.deriveKey(path, purpose)` abstracted as `anchor` (a
deterministic function of path and purpose, as a fixed trust-anchor state
is): hash the policy with plain `JSON.stringify`, build the path from the
first 16 hex characters, then chain the anchor key through a SHA-256 of
key ‖ moduleId ‖ stringified policy. -/
def deriveModuleKey (anchor : String → String → DerivedKey)
    (moduleId : String) (policy : Policy) : ModuleKeyResult :=
  let keyPath := "semiprop-modules/" ++ moduleId
  let policyHash := sha256hex (strBytes (jsonStringify policy))
  let fullPath := keyPath ++ "/" ++ policyHash.take 16
  let keyInfo := anchor fullPath "module-encryption"
  let moduleKey := sha256hex (keyInfo.key ++ strBytes moduleId ++
    strBytes (jsonStringify policy))
  ⟨moduleKey, keyInfo.signatureChain, fullPath⟩

/-! ## Legacy AES-256-CBC layer (model)

`crypto.scryptSync(password, 'salt', 32)` and
`createDecipheriv('aes-256-cbc', key, iv)` used by the legacy (version
2.0) path of `decryptModule`.  Both are external primitives; the scrypt
stand-in is a deterministic 32-byte KDF, and CBC-with-PKCS#7 is modelled
over the same keystream construction with the two properties the code
relies on: it inverts encryption, and malformed input makes `final()`
throw. -/

/-- Deterministic stand-in for `crypto.scryptSync(password, salt, len)`. -/
def scryptSyncModel (password salt : String) (len : Nat) : List Nat :=
  (sha256 (strBytes password ++ strBytes salt)).take len

/-- PKCS#7 padding to a 16-byte multiple. -/
def pkcs7pad (data : List Nat) : List Nat :=
  let p := 16 - data.length % 16
  data ++ List.replicate p p

/-- AES-256-CBC encryption (model): pad, then mask with the keystream. -/
def aes256cbcEncrypt (key iv data : List Nat) : List Nat :=
  let padded := pkcs7pad data
  xorBytes padded (keystream key iv padded.length)

/-- AES-256-CBC decryption (model): length must be a positive 16-byte
multiple, unmask, then strip valid PKCS#7 padding; otherwise `final()`
throws. -/
def aes256cbcDecrypt (key iv ct : List Nat) : Except String (List Nat) :=
  if ct.length = 0 ∨ ct.length % 16 ≠ 0 then
    .error "wrong final block length"
  else
    let pt := xorBytes ct (keystream key iv ct.length)
    let p := pt.getLastD 0
    if 1 ≤ p ∧ p ≤ 16 ∧ p ≤ pt.length ∧
        ((pt.drop (pt.length - p)).all (fun b => b = p)) then
      .ok (pt.take (pt.length - p))
    else
      .error "bad decrypt"

/-! ## `decryptModule`

`enclave/module-encryption.js` lines 88–153 (with its ECIES helper,
lines 158–206).  The dstack trust-anchor state is the `anchor` parameter;
`now` is the current time the policy gate reads. -/

/-- Package metadata (the fields `decryptModule` reads). -/
structure PkgMeta where
  policy : Policy
  sourceHash : String
  encryptionVersion : String
  deriving DecidableEq, Repr

/-- An encrypted package as stored on the bulletin board.  `iv` is the
hex-decoded legacy IV (unused on the ECIES path); `encryptedSource` is the
hex-decoded ciphertext buffer. -/
structure EncryptedPackage where
  metadata : PkgMeta
  encryptedSource : List Nat
  iv : List Nat
  signatureChain : List (List Nat)
  deriving DecidableEq, Repr

/-- The successful result of `decryptModule` (fields that are pure data;
the timestamps are I/O). -/
structure DecryptedModule where
  source : List Nat
  metadata : PkgMeta
  signatureChain : List (List Nat)
  deriving DecidableEq, Repr

/-- `decryptECIES(encryptedPackage, moduleId)` of
`enclave/module-encryption.js` lines 158–206: derive the enclave identity
private key from the trust anchor, then run the ECIES decryption (the body
duplicates `ECIESEncryption.decrypt` line for line). -/
def decryptECIES (anchor : String → String → DerivedKey)
    (pkg : EncryptedPackage) : Except String (List Nat) :=
  let keyInfo := anchor "enclave-identity" "enclave-public-key"
  eciesDecrypt pkg.encryptedSource (beToNat keyInfo.key)

/-- `s.startsWith(pre)` over the character lists (kernel-computable model
of the JS string method). -/
def strStartsWith (s pre : String) : Bool :=
  pre.data.isPrefixOf s.data

/-- Step 2 of `decryptModule`: version dispatch and symmetric/asymmetric
decryption — everything between the policy gate and the integrity check. -/
def cipherLayer (anchor : String → String → DerivedKey)
    (pkg : EncryptedPackage) (moduleId : String) : Except String (List Nat) :=
  let version :=
    if pkg.metadata.encryptionVersion = "" then "2.0"
    else pkg.metadata.encryptionVersion
  if strStartsWith version "3.0-ecies" then
    decryptECIES anchor pkg
  else
    let keyInfo := deriveModuleKey anchor moduleId pkg.metadata.policy
    let key := scryptSyncModel keyInfo.moduleKey "salt" 32
    aes256cbcDecrypt key pkg.iv pkg.encryptedSource

/-- `decryptModule(encryptedPackage, moduleId, requestPolicy)`: policy
gate, cipher layer, then the source-integrity check; any thrown error is
re-thrown wrapped in a `Module decryption failed:` message by the
surrounding `catch`. -/
def decryptModule (anchor : String → String → DerivedKey)
    (pkg : EncryptedPackage) (moduleId : String) (requestPolicy : Policy)
    (now : Nat) : Except String DecryptedModule :=
  let body : Except String DecryptedModule := do
    let _ ← verifyPolicyWithAttestation pkg.metadata.policy requestPolicy now
    let decrypted ← cipherLayer anchor pkg moduleId
    let actualHash := sha256hex decrypted
    if actualHash ≠ pkg.metadata.sourceHash then
      .error "Source integrity verification failed"
    else
      .ok ⟨decrypted, pkg.metadata, pkg.signatureChain⟩
  match body with
  | .ok r => .ok r
  | .error e => .error ("Module decryption failed: " ++ e)

/-! ## Spec-side predicates and sample node lists

The three forbidden-node predicates formalise claim C1's three families of
forbidden syntax: a bare reference to an ambient-scope identifier, a call
whose resolved callee name is on the external-API deny list, and a
`require` of a module (a non-empty string-literal module name; the empty
string is not a module name and is falsy in JS, so the source's
`if (moduleName && ...)` guard never treats it as one) outside the
allow-list.  The sample node lists are concrete traversals used as
witnesses: `sampleSolverNodes` is the pre-order node list of a minimal
accepted solver (one `for` loop, one `board[i][j] === num` comparison, one
`module.exports = { solveSudoku, validatePuzzle }` assignment). -/

/-- An `Identifier` node naming a forbidden ambient-scope identifier
(`global`, `window`, `self`, `globalThis`). -/
def isForbiddenIdentifierNode (n : AstNode) : Bool :=
  if n.ty = "Identifier" then
    match n.name with
    | some nm => forbiddenGlobals.contains nm
    | none => false
  else false

/-- A call expression whose resolved callee name is in the forbidden
external-API list. -/
def isForbiddenCallNode (n : AstNode) : Bool :=
  if n.ty = "CallExpression" then
    match getFunctionName n with
    | some f => isExternalAPI f
    | none => false
  else false

/-- A `require` call naming (by string literal) a module outside the
allow-list. -/
def isForbiddenRequireNode (n : AstNode) : Bool :=
  if n.ty = "CallExpression" ∧ n.calleeName = some "require" then
    match n.arg0Value with
    | some m => m ≠ "" ∧ ¬ isAllowedBuiltin m
    | none => false
  else false

/-- Any of the three forbidden-node families of claim C1. -/
def forbiddenNode (n : AstNode) : Bool :=
  isForbiddenIdentifierNode n || isForbiddenCallNode n || isForbiddenRequireNode n

/-- A `for` statement node. -/
def forNode : AstNode := bareNode "ForStatement"

/-- A `board[row][col] === num` grid-validation comparison node. -/
def gridCmpNode : AstNode :=
  { bareNode "BinaryExpression" with
      operator := some "==="
      leftType := some "MemberExpression"
      leftComputed := true
      rightType := some "Identifier" }

/-- The `module.exports = { solveSudoku, validatePuzzle }` node. -/
def exportsNode : AstNode :=
  { bareNode "AssignmentExpression" with
      leftObjectName := some "module"
      leftPropName := some "exports"
      rightType := some "ObjectExpression"
      rightKeyNames := ["solveSudoku", "validatePuzzle"] }

/-- A computed member access node (`a[i]`). -/
def computedAccessNode : AstNode :=
  { bareNode "MemberExpression" with computed := true }

/-- Node list of a minimal accepted solver module. -/
def sampleSolverNodes : List AstNode := [forNode, gridCmpNode, exportsNode]

/-- The minimal accepted solver plus 101 computed member accesses — more
than `maxArrayAccess = 100`. -/
def overIndexedNodes : List AstNode :=
  sampleSolverNodes ++ List.replicate 101 computedAccessNode

/-- The minimal accepted solver plus 21 `for` loops and 11 function
declarations — over both enforced complexity bounds. -/
def loopHeavyNodes : List AstNode :=
  sampleSolverNodes ++ List.replicate 21 forNode ++
    List.replicate 11 (bareNode "FunctionDeclaration")


/-! ## Concrete policies, anchors and packages used as witnesses -/

-- Equality of `Except` results is decidable component-wise.
deriving instance DecidableEq for Except

/-- A module policy that requires payment and expired at epoch
millisecond 1. -/
def expiredPaidPolicy : Policy :=
  [("requiresPayment", JVal.bool true), ("validUntil", JVal.num 1)]

/-- A concrete trust-anchor state: the mock key derivation at a fixed app
id (the state `deriveKey` is in after any fallback). -/
def mockAnchor : String → String → DerivedKey :=
  fun path purpose => deriveMockKey "appid" path purpose

/-- A two-key policy, keys in the order `a`, `b`. -/
def policyAB : Policy := [("a", JVal.str "1"), ("b", JVal.str "2")]

/-- The same key-value map with the keys enumerated in the order
`b`, `a`. -/
def policyBA : Policy := [("b", JVal.str "2"), ("a", JVal.str "1")]

/-- Metadata carrying a `sourceHash` that no plaintext of this test
hashes to. -/
def mismatchedMeta : PkgMeta :=
  { policy := []
    sourceHash := "00"
    encryptionVersion := "3.0-ecies" }

/-- An ECIES package that decrypts fine at the cipher layer (it was
encrypted to the enclave identity key that `mockAnchor` derives) but whose
stored `sourceHash` does not match the plaintext. -/
def mismatchedPackage : EncryptedPackage :=
  { metadata := mismatchedMeta
    encryptedSource := eciesEncrypt [104, 105, 33]
      (publicKeyCreate
        (beToNat (mockAnchor "enclave-identity" "enclave-public-key").key))
      7 (List.replicate 16 7)
    iv := []
    signatureChain := [] }

/-! ## Lemmas and claim theorems: the verifier -/


/-! Verifier lemma layer -/

theorem checkRequire_false (n : AstNode) (a : Analysis)
    (h : a.isContained = false) : (checkRequire n a).isContained = false := by
  unfold checkRequire
  repeat' split
  all_goals first | exact h | rfl

theorem checkExternalCall_false (n : AstNode) (a : Analysis)
    (h : a.isContained = false) : (checkExternalCall n a).isContained = false := by
  unfold checkExternalCall
  repeat' split
  all_goals first | exact h | rfl

theorem checkSystemAccess_false (n : AstNode) (a : Analysis)
    (h : a.isContained = false) : (checkSystemAccess n a).isContained = false := by
  unfold checkSystemAccess
  repeat' split
  all_goals first | exact h | rfl

theorem checkGlobalAccess_false (n : AstNode) (a : Analysis)
    (h : a.isContained = false) : (checkGlobalAccess n a).isContained = false := by
  unfold checkGlobalAccess
  repeat' split
  all_goals first | exact h | rfl

theorem checkAlgorithmicStructure_isContained (n : AstNode) (a : Analysis) :
    (checkAlgorithmicStructure n a).isContained = a.isContained := by
  unfold checkAlgorithmicStructure
  repeat' split
  all_goals rfl

theorem checkComplexity_isContained (n : AstNode) (a : Analysis) :
    (checkComplexity n a).isContained = a.isContained := by
  unfold checkComplexity
  repeat' split
  all_goals rfl

theorem checkExports_isContained (n : AstNode) (a : Analysis) :
    (checkExports n a).isContained = a.isContained := by
  unfold checkExports
  repeat' split
  all_goals rfl

theorem verifyStep_false (n : AstNode) (a : Analysis)
    (h : a.isContained = false) : (verifyStep a n).isContained = false := by
  unfold verifyStep checkExternalAccess
  rw [checkExports_isContained, checkComplexity_isContained,
    checkAlgorithmicStructure_isContained]
  exact checkGlobalAccess_false _ _ (checkSystemAccess_false _ _
    (checkExternalCall_false _ _ (checkRequire_false _ _ h)))

theorem foldl_verifyStep_false (ns : List AstNode) (a : Analysis)
    (h : a.isContained = false) :
    (ns.foldl verifyStep a).isContained = false := by
  induction ns generalizing a with
  | nil => exact h
  | cons x xs ih => exact ih _ (verifyStep_false x a h)

theorem checkRequiredExports_false (a : Analysis)
    (h : a.isContained = false) :
    (checkRequiredExports a).isContained = false := by
  unfold checkRequiredExports requiredExports
  simp only [List.foldl]
  repeat' split
  all_goals first | exact h | rfl

theorem requireLoops_false (a : Analysis) (h : a.isContained = false) :
    (requireLoops a).isContained = false := by
  unfold requireLoops
  split
  all_goals first | exact h | rfl

theorem requireGridValidation_false (a : Analysis) (h : a.isContained = false) :
    (requireGridValidation a).isContained = false := by
  unfold requireGridValidation
  split
  all_goals first | exact h | rfl

theorem boundLoopCount_false (a : Analysis) (h : a.isContained = false) :
    (boundLoopCount a).isContained = false := by
  unfold boundLoopCount
  split
  all_goals first | exact h | rfl

theorem boundFunctionCount_false (a : Analysis) (h : a.isContained = false) :
    (boundFunctionCount a).isContained = false := by
  unfold boundFunctionCount
  split
  all_goals first | exact h | rfl

theorem validateSudokuConstraints_false (a : Analysis)
    (h : a.isContained = false) :
    (validateSudokuConstraints a).isContained = false := by
  unfold validateSudokuConstraints
  exact boundFunctionCount_false _ (boundLoopCount_false _
    (requireGridValidation_false _ (requireLoops_false _
      (checkRequiredExports_false _ h))))

theorem checkGlobalAccess_fires (n : AstNode) (a : Analysis)
    (h : isForbiddenIdentifierNode n = true) :
    (checkGlobalAccess n a).isContained = false := by
  unfold isForbiddenIdentifierNode at h
  unfold checkGlobalAccess
  repeat' split
  all_goals simp_all

theorem checkExternalCall_fires (n : AstNode) (a : Analysis)
    (h : isForbiddenCallNode n = true) :
    (checkExternalCall n a).isContained = false := by
  unfold isForbiddenCallNode at h
  unfold checkExternalCall
  repeat' split
  all_goals simp_all

theorem checkRequire_fires (n : AstNode) (a : Analysis)
    (h : isForbiddenRequireNode n = true) :
    (checkRequire n a).isContained = false := by
  unfold isForbiddenRequireNode at h
  unfold checkRequire
  repeat' split
  all_goals simp_all

theorem forbiddenIdentifier_ty (n : AstNode)
    (h : isForbiddenIdentifierNode n = true) : n.ty = "Identifier" := by
  unfold isForbiddenIdentifierNode at h
  split at h
  · assumption
  · simp at h

theorem forbiddenCall_ty (n : AstNode)
    (h : isForbiddenCallNode n = true) : n.ty = "CallExpression" := by
  unfold isForbiddenCallNode at h
  split at h
  · assumption
  · simp at h

theorem forbiddenRequire_ty (n : AstNode)
    (h : isForbiddenRequireNode n = true) : n.ty = "CallExpression" := by
  unfold isForbiddenRequireNode at h
  split at h
  · rename_i hc
    exact hc.1
  · simp at h

theorem verifyStep_forbidden (n : AstNode) (a : Analysis)
    (h : forbiddenNode n = true) : (verifyStep a n).isContained = false := by
  unfold verifyStep checkExternalAccess
  rw [checkExports_isContained, checkComplexity_isContained,
    checkAlgorithmicStructure_isContained]
  unfold forbiddenNode at h
  rcases Bool.or_eq_true_iff.mp h with h' | hreq
  · rcases Bool.or_eq_true_iff.mp h' with hid | hcall
    · exact checkGlobalAccess_fires n _ hid
    · exact checkGlobalAccess_false n _ (checkSystemAccess_false n _
        (checkExternalCall_fires n _ hcall))
  · exact checkGlobalAccess_false n _ (checkSystemAccess_false n _
      (checkExternalCall_false n _ (checkRequire_fires n _ hreq)))

theorem foldl_verifyStep_forbidden (ns : List AstNode) (a : Analysis)
    (n : AstNode) (hn : n ∈ ns) (hb : forbiddenNode n = true) :
    (ns.foldl verifyStep a).isContained = false := by
  induction ns generalizing a with
  | nil => cases hn
  | cons x xs ih =>
    rcases List.mem_cons.mp hn with rfl | hx
    · exact foldl_verifyStep_false xs _ (verifyStep_forbidden n a hb)
    · exact ih _ hx

/-- C1: for every parsable source, if verification returns
`isContained = true` then the traversed syntax tree contains no identifier
node naming a forbidden ambient-scope identifier (`global`, `window`,
`self`, `globalThis`), no call expression whose resolved callee name is in
the forbidden external-API list, and no `require` of a module outside the
allow-list. -/
theorem verifier_denylist_sound (ns : List AstNode)
    (h : (verifySudoku ns).isContained = true) :
    ∀ n ∈ ns, isForbiddenIdentifierNode n = false ∧
      isForbiddenCallNode n = false ∧ isForbiddenRequireNode n = false := by
  intro n hn
  have hf : forbiddenNode n = false := by
    cases hfb : forbiddenNode n
    · rfl
    · exfalso
      have : (verifySudoku ns).isContained = false :=
        validateSudokuConstraints_false _
          (foldl_verifyStep_forbidden ns initialAnalysis n hn hfb)
      rw [h] at this
      cases this
  unfold forbiddenNode at hf
  simp only [Bool.or_eq_false_iff] at hf
  exact ⟨hf.1.1, hf.1.2, hf.2⟩

/-! C10: acceptance iff empty violations -/

theorem checkRequire_inv (n : AstNode) (a : Analysis)
    (h : a.isContained = true ↔ a.violations = []) :
    (checkRequire n a).isContained = true ↔ (checkRequire n a).violations = [] := by
  unfold checkRequire
  repeat' split
  all_goals simp_all

theorem checkExternalCall_inv (n : AstNode) (a : Analysis)
    (h : a.isContained = true ↔ a.violations = []) :
    (checkExternalCall n a).isContained = true ↔
      (checkExternalCall n a).violations = [] := by
  unfold checkExternalCall
  repeat' split
  all_goals simp_all

theorem checkSystemAccess_inv (n : AstNode) (a : Analysis)
    (h : a.isContained = true ↔ a.violations = []) :
    (checkSystemAccess n a).isContained = true ↔
      (checkSystemAccess n a).violations = [] := by
  unfold checkSystemAccess
  repeat' split
  all_goals simp_all

theorem checkGlobalAccess_inv (n : AstNode) (a : Analysis)
    (h : a.isContained = true ↔ a.violations = []) :
    (checkGlobalAccess n a).isContained = true ↔
      (checkGlobalAccess n a).violations = [] := by
  unfold checkGlobalAccess
  repeat' split
  all_goals simp_all

theorem checkAlgorithmicStructure_violations (n : AstNode) (a : Analysis) :
    (checkAlgorithmicStructure n a).violations = a.violations := by
  unfold checkAlgorithmicStructure
  repeat' split
  all_goals rfl

theorem checkComplexity_violations (n : AstNode) (a : Analysis) :
    (checkComplexity n a).violations = a.violations := by
  unfold checkComplexity
  repeat' split
  all_goals rfl

theorem checkExports_violations (n : AstNode) (a : Analysis) :
    (checkExports n a).violations = a.violations := by
  unfold checkExports
  repeat' split
  all_goals rfl

theorem verifyStep_inv (n : AstNode) (a : Analysis)
    (h : a.isContained = true ↔ a.violations = []) :
    (verifyStep a n).isContained = true ↔ (verifyStep a n).violations = [] := by
  unfold verifyStep checkExternalAccess
  rw [checkExports_isContained, checkComplexity_isContained,
    checkAlgorithmicStructure_isContained, checkExports_violations,
    checkComplexity_violations, checkAlgorithmicStructure_violations]
  exact checkGlobalAccess_inv n _ (checkSystemAccess_inv n _
    (checkExternalCall_inv n _ (checkRequire_inv n _ h)))

theorem foldl_verifyStep_inv (ns : List AstNode) (a : Analysis)
    (h : a.isContained = true ↔ a.violations = []) :
    (ns.foldl verifyStep a).isContained = true ↔
      (ns.foldl verifyStep a).violations = [] := by
  induction ns generalizing a with
  | nil => exact h
  | cons x xs ih => exact ih _ (verifyStep_inv x a h)

theorem checkRequiredExports_inv (a : Analysis)
    (h : a.isContained = true ↔ a.violations = []) :
    (checkRequiredExports a).isContained = true ↔
      (checkRequiredExports a).violations = [] := by
  unfold checkRequiredExports requiredExports
  simp only [List.foldl]
  repeat' split
  all_goals simp_all

theorem requireLoops_inv (a : Analysis)
    (h : a.isContained = true ↔ a.violations = []) :
    (requireLoops a).isContained = true ↔ (requireLoops a).violations = [] := by
  unfold requireLoops
  split
  all_goals simp_all

theorem requireGridValidation_inv (a : Analysis)
    (h : a.isContained = true ↔ a.violations = []) :
    (requireGridValidation a).isContained = true ↔
      (requireGridValidation a).violations = [] := by
  unfold requireGridValidation
  split
  all_goals simp_all

theorem boundLoopCount_inv (a : Analysis)
    (h : a.isContained = true ↔ a.violations = []) :
    (boundLoopCount a).isContained = true ↔
      (boundLoopCount a).violations = [] := by
  unfold boundLoopCount
  split
  all_goals simp_all

theorem boundFunctionCount_inv (a : Analysis)
    (h : a.isContained = true ↔ a.violations = []) :
    (boundFunctionCount a).isContained = true ↔
      (boundFunctionCount a).violations = [] := by
  unfold boundFunctionCount
  split
  all_goals simp_all

/-- C10: for every parsed source, the verification result satisfies
`isContained = true` iff its violations list is empty — every check that
appends a violation also clears `isContained`, `isContained` starts
`true`, and nothing ever sets it back. -/
theorem verifier_accept_iff_no_violations (ns : List AstNode) :
    (verifySudoku ns).isContained = true ↔ (verifySudoku ns).violations = [] := by
  unfold verifySudoku validateSudokuConstraints
  exact boundFunctionCount_inv _ (boundLoopCount_inv _
    (requireGridValidation_inv _ (requireLoops_inv _ (checkRequiredExports_inv _
      (foldl_verifyStep_inv ns initialAnalysis (by simp [initialAnalysis]))))))

/-! C7: complexity-bound lemmas -/

theorem checkRequiredExports_counts (a : Analysis) :
    (checkRequiredExports a).loopCount = a.loopCount ∧
      (checkRequiredExports a).functionCount = a.functionCount := by
  unfold checkRequiredExports requiredExports
  simp only [List.foldl]
  repeat' split
  all_goals exact ⟨rfl, rfl⟩

theorem requireLoops_counts (a : Analysis) :
    (requireLoops a).loopCount = a.loopCount ∧
      (requireLoops a).functionCount = a.functionCount := by
  unfold requireLoops
  split
  all_goals exact ⟨rfl, rfl⟩

theorem requireGridValidation_counts (a : Analysis) :
    (requireGridValidation a).loopCount = a.loopCount ∧
      (requireGridValidation a).functionCount = a.functionCount := by
  unfold requireGridValidation
  split
  all_goals exact ⟨rfl, rfl⟩

theorem boundLoopCount_counts (a : Analysis) :
    (boundLoopCount a).loopCount = a.loopCount ∧
      (boundLoopCount a).functionCount = a.functionCount := by
  unfold boundLoopCount
  split
  all_goals exact ⟨rfl, rfl⟩

theorem boundFunctionCount_counts (a : Analysis) :
    (boundFunctionCount a).loopCount = a.loopCount ∧
      (boundFunctionCount a).functionCount = a.functionCount := by
  unfold boundFunctionCount
  split
  all_goals exact ⟨rfl, rfl⟩

theorem boundLoopCount_fires (a : Analysis) (h : 20 < a.loopCount) :
    (boundLoopCount a).isContained = false ∧
      ("Excessive loop complexity: " ++ toString a.loopCount) ∈
        (boundLoopCount a).violations := by
  unfold boundLoopCount
  rw [if_pos h]
  exact ⟨rfl, by simp⟩

theorem boundFunctionCount_fires (a : Analysis) (h : 10 < a.functionCount) :
    (boundFunctionCount a).isContained = false ∧
      ("Excessive function count: " ++ toString a.functionCount) ∈
        (boundFunctionCount a).violations := by
  unfold boundFunctionCount
  rw [if_pos h]
  exact ⟨rfl, by simp⟩

theorem boundFunctionCount_mem (a : Analysis) (x : String)
    (h : x ∈ a.violations) : x ∈ (boundFunctionCount a).violations := by
  unfold boundFunctionCount
  split
  all_goals simp_all

/-- C7 (amended): of the three complexity counters, the loop count
(bound 20) and the function-declaration count (bound 10) cause rejection
with a violation naming the exceeded counter when they exceed their
bounds; the indexed-access counter is recorded but no bound on it is
enforced (see `verifier_indexed_access_unbounded`). -/
theorem verifier_loop_function_bounds (ns : List AstNode) :
    (20 < (verifySudoku ns).loopCount →
      (verifySudoku ns).isContained = false ∧
        ("Excessive loop complexity: " ++ toString (verifySudoku ns).loopCount) ∈
          (verifySudoku ns).violations) ∧
    (10 < (verifySudoku ns).functionCount →
      (verifySudoku ns).isContained = false ∧
        ("Excessive function count: " ++
            toString (verifySudoku ns).functionCount) ∈
          (verifySudoku ns).violations) := by
  have hv : verifySudoku ns = boundFunctionCount (boundLoopCount
      (requireGridValidation (requireLoops (checkRequiredExports
        (ns.foldl verifyStep initialAnalysis))))) := rfl
  set c := requireGridValidation (requireLoops (checkRequiredExports
    (ns.foldl verifyStep initialAnalysis))) with hc
  have hlc : (verifySudoku ns).loopCount = c.loopCount := by
    rw [hv, (boundFunctionCount_counts _).1, (boundLoopCount_counts _).1]
  have hfc : (verifySudoku ns).functionCount = (boundLoopCount c).functionCount := by
    rw [hv, (boundFunctionCount_counts _).2]
  constructor
  · intro h1
    rw [hlc] at h1
    have hfire := boundLoopCount_fires c h1
    constructor
    · rw [hv]
      exact boundFunctionCount_false _ hfire.1
    · rw [hv, (boundFunctionCount_counts _).1, (boundLoopCount_counts _).1]
      exact boundFunctionCount_mem _ _ hfire.2
  · intro h2
    rw [hfc] at h2
    have hfire := boundFunctionCount_fires (boundLoopCount c) h2
    rw [hv, (boundFunctionCount_counts _).2]
    exact hfire

/-- Witness for C1: a concrete accepted module, evaluated. -/
theorem verifier_denylist_sound_witness :
    (verifySudoku sampleSolverNodes).isContained = true ∧
      (isForbiddenIdentifierNode forNode = false ∧
        isForbiddenCallNode forNode = false ∧
        isForbiddenRequireNode forNode = false) :=
  ⟨by decide,
   verifier_denylist_sound sampleSolverNodes (by decide) forNode (by decide)⟩

/-- C7 counterexample: a source with 101 computed member accesses — above
`maxArrayAccess = 100` — is accepted with no violations, so an
indexed-access count above its configured bound does not cause
rejection. -/
theorem verifier_indexed_access_unbounded :
    (verifySudoku overIndexedNodes).arrayAccess = 101 ∧
      100 < (verifySudoku overIndexedNodes).arrayAccess ∧
      (verifySudoku overIndexedNodes).isContained = true ∧
      (verifySudoku overIndexedNodes).violations = [] := by decide

/-- Witness for the amended C7: a module with 22 loops and 11 function
declarations is rejected with both counter violations. -/
theorem verifier_loop_function_bounds_witness :
    ((verifySudoku loopHeavyNodes).isContained = false ∧
      ("Excessive loop complexity: " ++
          toString (verifySudoku loopHeavyNodes).loopCount) ∈
        (verifySudoku loopHeavyNodes).violations) ∧
    ((verifySudoku loopHeavyNodes).isContained = false ∧
      ("Excessive function count: " ++
          toString (verifySudoku loopHeavyNodes).functionCount) ∈
        (verifySudoku loopHeavyNodes).violations) := by
  have h := verifier_loop_function_bounds loopHeavyNodes
  exact ⟨h.1 (by decide), h.2 (by decide)⟩

/-- C6 (amended): for a source that fails to parse, `verifySudokuModule`
propagates the parse exception to its caller unchanged; no rejection
result and no `unparsable source` violation entry is produced. -/
theorem verify_parse_error_propagates (e : String) :
    verifySudokuModule (Except.error e) = Except.error e := rfl

/-- C6 counterexample: at a concrete parse failure the verification
does not return a rejection result — the exception propagates, so there is
no `accepted = false` result carrying an `unparsable source` violation. -/
theorem verify_parse_error_counterexample :
    verifySudokuModule (Except.error "Unexpected token") =
      Except.error "Unexpected token" := rfl

/-! ## Lemmas and claim theorems: the ECIES codec -/

theorem natToBytesBE_length (l p : Nat) : (natToBytesBE l p).length = l := by
  induction l generalizing p with
  | zero => rfl
  | succ k ih => simp [natToBytesBE, ih]

theorem beToNat_append (xs : List Nat) (b : Nat) :
    beToNat (xs ++ [b]) = 256 * beToNat xs + b := by
  unfold beToNat
  rw [List.foldl_append]
  simp [Nat.mul_comm]

theorem beToNat_natToBytesBE (l p : Nat) (h : p < 256 ^ l) :
    beToNat (natToBytesBE l p) = p := by
  induction l generalizing p with
  | zero =>
    simp [natToBytesBE, beToNat]
    omega
  | succ k ih =>
    have hdiv : p / 256 < 256 ^ k := by
      rw [Nat.div_lt_iff_lt_mul (by norm_num)]
      calc p < 256 ^ (k + 1) := h
        _ = 256 ^ k * 256 := by ring
    rw [natToBytesBE, beToNat_append, ih _ hdiv]
    omega

theorem pointSer_length (p : Nat) : (pointSer p).length = 65 := by
  simp [pointSer, natToBytesBE_length]

theorem pointParse_pointSer (p : Nat) (h : p < 2 ^ 256) :
    pointParse (pointSer p) = p := by
  have hform : pointSer p = 4 :: (natToBytesBE 32 p ++ List.replicate 32 0) := by
    simp [pointSer]
  unfold pointParse
  rw [hform, List.drop_one, List.tail_cons,
    List.take_left' (natToBytesBE_length 32 p)]
  exact beToNat_natToBytesBE 32 p (by norm_num at h ⊢; exact h)

theorem sha256_length (msg : List Nat) : (sha256 msg).length = 32 := by
  simp [sha256, word32Bytes]

theorem hmacSha256_length (key msg : List Nat) :
    (hmacSha256 key msg).length = 32 := by
  unfold hmacSha256
  exact sha256_length _

theorem ksBlocksFrom_length (key iv : List Nat) (i c : Nat) :
    (ksBlocksFrom key iv i c).length = 32 * c := by
  induction c generalizing i with
  | zero => rfl
  | succ k ih =>
    simp only [ksBlocksFrom, List.length_append, sha256_length, ih]
    omega

theorem keystream_length (key iv : List Nat) (n : Nat) :
    (keystream key iv n).length = n := by
  unfold keystream
  rw [List.length_take, ksBlocksFrom_length]
  have h1 := Nat.div_add_mod (n + 31) 32
  have h2 : (n + 31) % 32 < 32 := Nat.mod_lt _ (by norm_num)
  omega

theorem xorBytes_length (a b : List Nat) :
    (xorBytes a b).length = min a.length b.length := by
  simp [xorBytes]

theorem xorBytes_cancel (d k : List Nat) (h : d.length ≤ k.length) :
    xorBytes (xorBytes d k) k = d := by
  induction d generalizing k with
  | nil => simp [xorBytes]
  | cons x xs ih =>
    cases k with
    | nil => simp at h
    | cons y ys =>
      simp only [xorBytes, List.zipWith] at *
      rw [Nat.xor_cancel_right]
      congr 1
      exact ih ys (by simpa using h)

theorem aes128ctr_cancel (key iv data : List Nat) :
    aes128ctr key iv (aes128ctr key iv data) = data := by
  unfold aes128ctr
  have hlen : (xorBytes data (keystream key iv data.length)).length = data.length := by
    rw [xorBytes_length, keystream_length]
    simp
  rw [hlen]
  exact xorBytes_cancel data _ (by rw [keystream_length])

/-- C2: for every plaintext byte string, every valid recipient key pair
`(priv, publicKeyCreate priv)` and every choice of the randomness the code
draws (a valid ephemeral private key and a 16-byte IV),
`decrypt(encrypt(M, pub), priv)` returns exactly `M`. -/
theorem ecies_roundtrip (data iv : List Nat) (priv ephPriv : Nat)
    (hpriv : privateKeyVerify priv = true)
    (heph : privateKeyVerify ephPriv = true)
    (hiv : iv.length = 16) :
    eciesDecrypt (eciesEncrypt data (publicKeyCreate priv) ephPriv iv) priv =
      Except.ok data := by
  have hNpos : 0 < secpN := by norm_num [secpN]
  have hmodlt : ∀ x : Nat, x % secpN < 2 ^ 256 := by
    intro x
    have h1 : x % secpN < secpN := Nat.mod_lt _ hNpos
    have h2 : secpN < 2 ^ 256 := by norm_num [secpN]
    omega
  -- the two ECDH computations agree
  have hsp : publicKeyTweakMul (publicKeyCreate ephPriv) priv =
      publicKeyTweakMul (publicKeyCreate priv) ephPriv := by
    unfold publicKeyTweakMul publicKeyCreate
    rw [pointParse_pointSer _ (hmodlt ephPriv),
      pointParse_pointSer _ (hmodlt priv), Nat.mod_mul_mod, Nat.mod_mul_mod,
      Nat.mul_comm]
  -- shorthands for the encryption-side pieces
  set epk := publicKeyCreate ephPriv with hepk
  set sp := publicKeyTweakMul (publicKeyCreate priv) ephPriv with hspdef
  set ks := eciesKeys sp with hks
  set ct := aes128ctr ks.1 iv data with hct
  set mc := hmacSha256 ks.2 (epk ++ (iv ++ ct)) with hmc
  have hbuf : eciesEncrypt data (publicKeyCreate priv) ephPriv iv =
      epk ++ (iv ++ ct) ++ mc := rfl
  have hepklen : epk.length = 65 := pointSer_length _
  have hctlen : ct.length = data.length := by
    rw [hct]
    unfold aes128ctr
    rw [xorBytes_length, keystream_length]
    simp
  have hmclen : mc.length = 32 := hmacSha256_length _ _
  have hbuflen : (epk ++ (iv ++ ct) ++ mc).length = 113 + data.length := by
    simp [hepklen, hiv, hctlen, hmclen]
    omega
  rw [hbuf]
  unfold eciesDecrypt
  rw [if_neg (by omega)]
  -- identify the parts
  have hparts : eciesParts (epk ++ (iv ++ ct) ++ mc) priv =
      ⟨epk, iv ++ ct, mc, (eciesKeys sp).1, (eciesKeys sp).2,
        hmacSha256 (eciesKeys sp).2 (epk ++ (iv ++ ct))⟩ := by
    unfold eciesParts
    have htake : (epk ++ (iv ++ ct) ++ mc).take 65 = epk := by
      rw [List.append_assoc]
      exact List.take_left' hepklen
    have hdrop : (epk ++ (iv ++ ct) ++ mc).drop 65 = (iv ++ ct) ++ mc := by
      rw [List.append_assoc]
      exact List.drop_left' hepklen
    have henc : ((epk ++ (iv ++ ct) ++ mc).drop 65).take
        ((epk ++ (iv ++ ct) ++ mc).length - 97) = iv ++ ct := by
      rw [hdrop, hbuflen]
      exact List.take_left' (by simp [hiv, hctlen]; omega)
    have hmac2 : (epk ++ (iv ++ ct) ++ mc).drop
        ((epk ++ (iv ++ ct) ++ mc).length - 32) = mc := by
      rw [hbuflen, ← List.append_assoc]
      exact List.drop_left' (by simp [hepklen, hiv, hctlen]; omega)
    rw [htake, henc, hmac2]
    dsimp only
    rw [hsp]
  rw [hparts]
  simp only
  simp only [if_true]
  have hiv2 : (iv ++ ct).take 16 = iv := List.take_left' hiv
  have hct2 : (iv ++ ct).drop 16 = ct := List.drop_left' hiv
  rw [hiv2, hct2]
  show Except.ok (aes128ctr ks.1 iv (aes128ctr ks.1 iv data)) = Except.ok data
  rw [aes128ctr_cancel]

/-- C3: for every parseable ciphertext buffer and private key, decryption
recomputes the MAC over the embedded ephemeral public key and the
IV-plus-ciphertext span and compares it with the embedded MAC; on mismatch
it fails with the MAC-verification error, the action trace contains only
the MAC comparison, and no symmetric decryption is performed. -/
theorem ecies_mac_verified_before_decrypt (buf : List Nat) (priv : Nat)
    (hlen : 97 ≤ buf.length)
    (hmac : (eciesParts buf priv).mac ≠ (eciesParts buf priv).expectedMac) :
    eciesDecryptTraced buf priv =
        (Except.error "MAC verification failed", [DecItem.macVerify]) ∧
      DecItem.symDecrypt ∉ (eciesDecryptTraced buf priv).2 ∧
      eciesDecrypt buf priv = Except.error "MAC verification failed" := by
  have h1 : eciesDecryptTraced buf priv =
      (Except.error "MAC verification failed", [DecItem.macVerify]) := by
    unfold eciesDecryptTraced
    simp only [if_neg (show ¬ buf.length < 97 by omega), eq_false hmac,
      if_false]
  have h2 : eciesDecrypt buf priv = Except.error "MAC verification failed" := by
    unfold eciesDecrypt
    simp only [if_neg (show ¬ buf.length < 97 by omega), eq_false hmac,
      if_false]
  refine ⟨h1, ?_, h2⟩
  rw [h1]
  simp

/-- Witness for C3: a concrete 97-byte buffer whose embedded MAC (32 zero
bytes) does not match the recomputed one. -/
theorem ecies_mac_verified_before_decrypt_witness :
    eciesDecryptTraced (List.replicate 97 0) 1 =
        (Except.error "MAC verification failed", [DecItem.macVerify]) ∧
      DecItem.symDecrypt ∉ (eciesDecryptTraced (List.replicate 97 0) 1).2 ∧
      eciesDecrypt (List.replicate 97 0) 1 =
        Except.error "MAC verification failed" :=
  ecies_mac_verified_before_decrypt (List.replicate 97 0) 1 (by decide)
    (by decide)

/-- Witness for C2: a concrete round trip, evaluated. -/
theorem ecies_roundtrip_witness :
    eciesDecrypt
        (eciesEncrypt [104, 105] (publicKeyCreate 5) 7 (List.replicate 16 0)) 5 =
      Except.ok [104, 105] :=
  ecies_roundtrip [104, 105] (List.replicate 16 0) 5 7 (by decide) (by decide)
    (by decide)

/-! ## Lemmas and claim theorems: policy gate, key derivation, decryptModule -/


/-- C8 counterexample: a module policy that both requires payment and is
expired, with a request carrying no payment proof, makes the
authorization check return the payment error, not the distinct `Expired`
error — the payment rule is evaluated first. -/
theorem policy_gate_payment_precedes_expiry :
    verifyPolicyWithAttestation expiredPaidPolicy [] 1000 =
        Except.error "Payment required for module decryption" ∧
      verifyPolicyWithAttestation expiredPaidPolicy [] 1000 ≠
        Except.error "Module access has expired" := by
  constructor
  · decide
  · decide

/-- C8 (amended): whenever `valid_until` is a (truthy) past timestamp and
the payment precondition is satisfied (payment not required, or a payment
proof present), the authorization check returns the distinct `Expired`
error; when payment is required and no proof is supplied, the
`PaymentRequired` error takes precedence. -/
theorem policy_gate_expired (mp rp : Policy) (now t : Nat) (v : JVal)
    (hpay : truthyProp mp "requiresPayment" = true →
      truthyProp rp "paymentProof" = true)
    (hvu : getProp mp "validUntil" = some v)
    (htr : v.truthy = true)
    (hdm : jsDateMs v = some t)
    (hlt : t < now) :
    verifyPolicyWithAttestation mp rp now =
      Except.error "Module access has expired" := by
  have hc1 : ¬ (truthyProp mp "requiresPayment" = true ∧
      ¬ truthyProp rp "paymentProof" = true) := by
    rintro ⟨h1, h2⟩
    exact h2 (hpay h1)
  have hc2 : truthyProp mp "validUntil" = true := by
    unfold truthyProp
    rw [hvu]
    exact htr
  unfold verifyPolicyWithAttestation
  rw [if_neg hc1, if_pos hc2, hvu]
  simp only [Option.some_bind, hdm]
  rw [if_pos hlt]

/-- Witness for the amended C8: an expired no-payment policy, evaluated. -/
theorem policy_gate_expired_witness :
    verifyPolicyWithAttestation [("validUntil", JVal.num 1)] [] 1000 =
      Except.error "Module access has expired" :=
  policy_gate_expired [("validUntil", JVal.num 1)] [] 1000 1 (JVal.num 1)
    (by decide) (by decide) (by decide) (by decide) (by decide)




/-- C9 counterexample: two policy objects that are equal as key-value
maps (a permutation with identical lookups) but enumerate their keys in
different orders produce different key-derivation paths and different
module keys — `JSON.stringify` is insertion-order dependent, so the policy
hash is not canonical. -/
theorem derive_module_key_order_dependent :
    policyAB.Perm policyBA ∧
      getProp policyAB "a" = getProp policyBA "a" ∧
      getProp policyAB "b" = getProp policyBA "b" ∧
      (deriveModuleKey mockAnchor "m" policyAB).keyPath ≠
        (deriveModuleKey mockAnchor "m" policyBA).keyPath ∧
      (deriveModuleKey mockAnchor "m" policyAB).moduleKey ≠
        (deriveModuleKey mockAnchor "m" policyBA).moduleKey := by
  refine ⟨List.Perm.swap _ _ _, by decide, by decide, by decide, by decide⟩

/-- C9 (amended): `derive_module_key` is deterministic in the serialized
policy: two policies with the same `JSON.stringify` image (same key-value
pairs in the same order) give the same derivation path and the same module
key; reordering keys can change both (see
`derive_module_key_order_dependent`). -/
theorem derive_module_key_stringify_det
    (anchor : String → String → DerivedKey) (moduleId : String)
    (p q : Policy) (h : jsonStringify p = jsonStringify q) :
    deriveModuleKey anchor moduleId p = deriveModuleKey anchor moduleId q := by
  unfold deriveModuleKey
  rw [h]

/-- Witness for the amended C9. -/
theorem derive_module_key_stringify_det_witness :
    deriveModuleKey mockAnchor "m" policyAB = deriveModuleKey mockAnchor "m" policyAB :=
  derive_module_key_stringify_det mockAnchor "m" policyAB policyAB rfl

/-- C5 (code evaluated at the failing input): with a dstack client
present (a production trust-anchor configuration) whose `getKey` request
fails, `deriveKey` does not surface any error — it silently returns the
deterministic mock key (`SHA-256` of a fixed seed string), contradicting
the fail-closed requirement. -/
theorem derive_key_silent_mock_fallback :
    deriveKey (some (Except.error "connect ECONNREFUSED")) "appid" "kp"
        "encryption" =
      deriveMockKey "appid" "kp" "encryption" ∧
    (deriveKey (some (Except.error "connect ECONNREFUSED")) "appid" "kp"
        "encryption").key =
      sha256 (strBytes "mock-dstack-key:appid:kp:encryption") := by
  refine ⟨rfl, by decide⟩

/-- C4: whenever the policy gate passes and the cipher layer decrypts
successfully but the plaintext's SHA-256 hex digest differs from the
package's stored `sourceHash`, `decryptModule` fails with the integrity
error and returns no decrypted source. -/
theorem decrypt_module_integrity (anchor : String → String → DerivedKey)
    (pkg : EncryptedPackage) (mId : String) (rp : Policy) (now : Nat)
    (d : List Nat)
    (hpol : verifyPolicyWithAttestation pkg.metadata.policy rp now =
      Except.ok ())
    (hcip : cipherLayer anchor pkg mId = Except.ok d)
    (hh : sha256hex d ≠ pkg.metadata.sourceHash) :
    decryptModule anchor pkg mId rp now =
      Except.error
        "Module decryption failed: Source integrity verification failed" := by
  unfold decryptModule
  simp only [hpol, hcip, bind, Except.bind, if_pos hh]
  rfl



set_option maxHeartbeats 8000000 in
/-- Witness for C4: a concrete package whose ECIES layer decrypts to
`hi!` but whose stored hash is `00`, evaluated. -/
theorem decrypt_module_integrity_witness :
    decryptModule mockAnchor mismatchedPackage "m" [] 0 =
      Except.error
        "Module decryption failed: Source integrity verification failed" :=
  decrypt_module_integrity mockAnchor mismatchedPackage "m" [] 0 [104, 105, 33]
    (by decide) (by decide) (by decide)
